import Mathlib

set_option maxHeartbeats 1000000

/-!
Shallow embedding of the partner-consignment external-offers service:
`src/server.js`, `src/lib/airtable.js` and `src/lib/discord.js`.

Modelling conventions:
* JavaScript numbers that hold prices or VAT percentages are modelled as
  exact rationals (`ℚ`); `null`/absent JSON values are `Option`.
* Numeric record fields that the source passes through `toNumber`/`asNumber`
  are modelled as already-parsed `Option ℚ` (on a number both helpers are the
  identity; `null` maps to `none`).
* Calls to the record store and the messaging transport are modelled by
  explicit outcome oracles (`Except String _`): an `Except.error` models the
  collaborator throwing, an `Except.ok` models its successful result.
-/

/-- Character-by-character upper-casing, modelling `String.prototype.toUpperCase`
on the ASCII data this service handles. -/
def toUpperStr (s : String) : String := (s.toList.map Char.toUpper).asString

/-- Character-by-character lower-casing, modelling `String.prototype.toLowerCase`
on the ASCII data this service handles. -/
def toLowerStr (s : String) : String := (s.toList.map Char.toLower).asString

/-- Whitespace trimming at both ends, modelling `String.prototype.trim`. -/
def trimStr (s : String) : String :=
  ((s.toList.dropWhile Char.isWhitespace).reverse.dropWhile Char.isWhitespace).reverse.asString

/-- JavaScript `String.prototype.includes`: `pat` occurs contiguously in `s`. -/
def containsSubstr (s pat : String) : Bool :=
  decide (pat.toList <:+: s.toList)

/-- Country classifier `isNL` (src/server.js lines 34-40): `null`/empty is not
NL; otherwise trim + lower-case, accept a fixed list of exact spellings, then
accept any string containing "neder", "nether" or the NL flag emoji. -/
def isNL (s : Option String) : Bool :=
  match s with
  | none => false
  | some str =>
    if str = "" then false
    else
      let t := toLowerStr (trimStr str)
      if t = "nl" ∨ t = "nld" ∨ t = "nederland" ∨ t = "netherlands" ∨ t = "the netherlands" then
        true
      else if containsSubstr t "neder" || containsSubstr t "nether" || containsSubstr t "🇳🇱" then
        true
      else false

/-- `toPct01` (src/server.js lines 50-54) on an already-numeric value:
values above 1 are percentages (divide by 100), the rest already fractions. -/
def toPct01 (n : ℚ) : ℚ := if n > 1 then n / 100 else n

/-- `round2` (src/lib/airtable.js line 74): `Math.round(n * 100) / 100`. -/
def round2 (n : ℚ) : ℚ := (round (n * 100) : ℤ) / 100

/-- Two-decimal rendering of a rational, modelling `Number.prototype.toFixed(2)`
as used by `euro` on the exact two-decimal prices this service handles. -/
def fixed2 (v : ℚ) : String :=
  let c : ℤ := round (v * 100)
  let sign := if c < 0 then "-" else ""
  let a := c.natAbs
  sign ++ toString (a / 100) ++ "." ++ (if a % 100 < 10 then "0" else "") ++ toString (a % 100)

/-- `euro` helper (src/server.js line 41) on a present numeric value. -/
def euro (v : ℚ) : String := "€" ++ fixed2 v

/-- Normalisation applied to the raw VAT tag in `decideModeAndDisplay`
(src/server.js line 85): `String(vatTypeRaw || "").toUpperCase()` with all
whitespace and hyphens removed. -/
def normalizeVatTag (s : Option String) : String :=
  ((toUpperStr (s.getD "")).toList.filter (fun c => !c.isWhitespace && c ≠ '-')).asString

/-- Negotiation mode returned by the decision engine. -/
inductive Mode
  | offer
  | confirm
deriving DecidableEq, Repr

/-- The `display` object built by `decideModeAndDisplay`. -/
structure Display where
  yourAmount : ℚ
  ourAmount : ℚ
  vatTagYour : String
  vatTagOur : String
  yourLabel : String
  ourLabel : String
deriving DecidableEq, Repr

/-- Input of `decideModeAndDisplay` (src/server.js lines 82-84). -/
structure DecideInput where
  vatTypeRaw : Option String
  sellerCountry : Option String
  sellerVatPct : Option ℚ
  sellerSuggestedRaw : ℚ
  ourOfferIncl : ℚ

/-- Output of `decideModeAndDisplay`, including the `decision` bases. -/
structure DecideOutput where
  mode : Mode
  display : Display
  confirmedVatType : String
  basisOurs : ℚ
  basisSeller : ℚ
deriving DecidableEq, Repr

/-- `decideModeAndDisplay` (src/server.js lines 82-162): regime-driven basis
selection, then `mode = basisOurs < basisSeller ? "offer" : "confirm"`. -/
def decideModeAndDisplay (i : DecideInput) : DecideOutput :=
  let vt := normalizeVatTag i.vatTypeRaw
  let sellerPct01 := toPct01 (i.sellerVatPct.getD 21)
  let treatAsNL := isNL i.sellerCountry
  if containsSubstr vt "MARGIN" then
    { mode := if i.ourOfferIncl < i.sellerSuggestedRaw then Mode.offer else Mode.confirm
      display := { yourAmount := i.sellerSuggestedRaw, ourAmount := i.ourOfferIncl,
                   vatTagYour := "(Margin)", vatTagOur := "(Margin)",
                   yourLabel := "Your Price", ourLabel := "Our Offer" }
      confirmedVatType := "Margin"
      basisOurs := i.ourOfferIncl, basisSeller := i.sellerSuggestedRaw }
  else if containsSubstr vt "VAT21" then
    { mode := if i.ourOfferIncl < i.sellerSuggestedRaw then Mode.offer else Mode.confirm
      display := { yourAmount := i.sellerSuggestedRaw, ourAmount := i.ourOfferIncl,
                   vatTagYour := "(VAT 21%)", vatTagOur := "(VAT 21%)",
                   yourLabel := "Your Price", ourLabel := "Our Offer" }
      confirmedVatType := "VAT21"
      basisOurs := i.ourOfferIncl, basisSeller := i.sellerSuggestedRaw }
  else if containsSubstr vt "VAT0" && treatAsNL then
    let factor := 1 + sellerPct01
    { mode := if i.ourOfferIncl < i.sellerSuggestedRaw * factor then Mode.offer else Mode.confirm
      display := { yourAmount := i.sellerSuggestedRaw * factor, ourAmount := i.ourOfferIncl,
                   vatTagYour := "(VAT 21%)", vatTagOur := "(VAT 21%)",
                   yourLabel := "Your Price", ourLabel := "Our Offer" }
      confirmedVatType := "VAT21"
      basisOurs := i.ourOfferIncl, basisSeller := i.sellerSuggestedRaw * factor }
  else if containsSubstr vt "VAT0" then
    let divisor := 1 + sellerPct01
    { mode := if i.ourOfferIncl / divisor < i.sellerSuggestedRaw then Mode.offer else Mode.confirm
      display := { yourAmount := i.sellerSuggestedRaw, ourAmount := i.ourOfferIncl / divisor,
                   vatTagYour := "(VAT 0%)", vatTagOur := "(VAT 0%)",
                   yourLabel := "Your Price", ourLabel := "Our Offer" }
      confirmedVatType := "VAT0"
      basisOurs := i.ourOfferIncl / divisor, basisSeller := i.sellerSuggestedRaw }
  else
    { mode := if i.ourOfferIncl < i.sellerSuggestedRaw then Mode.offer else Mode.confirm
      display := { yourAmount := i.sellerSuggestedRaw, ourAmount := i.ourOfferIncl,
                   vatTagYour := "(VAT 21%)", vatTagOur := "(VAT 21%)",
                   yourLabel := "Your Price", ourLabel := "Our Offer" }
      confirmedVatType := "VAT21"
      basisOurs := i.ourOfferIncl, basisSeller := i.sellerSuggestedRaw }

example :
    (decideModeAndDisplay
      { vatTypeRaw := some "VAT21", sellerCountry := some "DE", sellerVatPct := some 21,
        sellerSuggestedRaw := 100, ourOfferIncl := 90 }).mode = Mode.offer := by decide

example :
    (decideModeAndDisplay
      { vatTypeRaw := some "VAT0", sellerCountry := some "Netherlands", sellerVatPct := some 21,
        sellerSuggestedRaw := 100, ourOfferIncl := 125 }).basisSeller = 121 := by
  have h1 : containsSubstr (normalizeVatTag (some "VAT0")) "MARGIN" = false := by decide
  have h2 : containsSubstr (normalizeVatTag (some "VAT0")) "VAT21" = false := by decide
  have h3 : containsSubstr (normalizeVatTag (some "VAT0")) "VAT0" = true := by decide
  have h4 : isNL (some "Netherlands") = true := by decide
  simp [decideModeAndDisplay, h1, h2, h3, h4]
  norm_num [toPct01]

/-! ## Finalize pipeline (POST /finalize-external-deal, src/server.js lines 348-518) -/

/-- The fields of one External Sales Log record, as read by `readExternalRecord`
and consumed by the finalize route.  Single-select/lookup fields are the result
of `toText`/`getSingleSelectLabel` (`Option String`); linked-record fields keep
their id lists; numeric fields are the `toNumber`/`asNumber` parse result. -/
structure ExternalFields where
  finalDealPrice : Option ℚ
  buyer : List String
  shippingLabel : List String
  sku : List String
  confirmedSeller : List String
  confirmedOfferPrice : Option ℚ
  offerVatType : Option String
  sellingVatType : Option String
  buyerCountry : Option String
  buyerVatId : Option String
  exceptionApproved : Bool
  minVat0 : Option ℚ
  minVat21 : Option ℚ
  minMargin : Option ℚ
  confirmedInventory : Option String
  stockLevelsLink : List String
deriving DecidableEq, Repr, Inhabited

/-- `mapSellingVat` (src/server.js lines 391-407): Margin offers always invoice
as Margin; otherwise `Private` maps to VAT21, the explicit selections (also in
their "VAT 21%"/"VAT 0%" spellings) map to themselves, anything else to null. -/
def mapSellingVat (offerVat sellingSel : Option String) : Option String :=
  let sel := toUpperStr (sellingSel.getD "")
  let off := toUpperStr (offerVat.getD "")
  if containsSubstr off "MARGIN" then some "Margin"
  else if sel = "PRIVATE" then some "VAT21"
  else if sel = "VAT21" ∨ sel = "VAT 21%" then some "VAT21"
  else if sel = "VAT0" ∨ sel = "VAT 0%" then some "VAT0"
  else if sel = "MARGIN" then some "Margin"
  else none

/-- Outcome of one finalize invocation.  `reject422` carries the JSON `error`,
the Bot Feedback text and the Deal Status written by `writeExternalFeedback`;
`ok` carries the success feedback and the final Deal Status. -/
inductive FinalizeResult
  | reject422 (error : String) (feedback : String) (dealStatus : String)
  | ok (feedback : String) (dealStatus : String)
deriving DecidableEq, Repr

/-- Whether the route answered 200 (`res.json({ ok: true, salesId })`). -/
def FinalizeResult.isOk : FinalizeResult → Bool
  | .ok _ _ => true
  | .reject422 _ _ _ => false

/-- Required-presence stage (src/server.js lines 356-368). -/
def missingRequired (f : ExternalFields) : List String :=
  (if f.finalDealPrice.isNone then ["Final Deal Price"] else []) ++
  (if f.buyer.isEmpty then ["Buyer"] else []) ++
  (if f.shippingLabel.isEmpty then ["Shipping Label"] else [])

/-- Rejection produced by the required-presence stage, if any. -/
def presenceStage (f : ExternalFields) : Option FinalizeResult :=
  let missing := missingRequired f
  if missing.isEmpty then none
  else some (.reject422 "Missing required fields"
    ("❌ Missing required: " ++ String.intercalate ", " missing ++ ".") "Closing")

/-- Confirmed-offer guard (src/server.js lines 371-381). -/
def confirmedStage (f : ExternalFields) : Option FinalizeResult :=
  if f.sku.isEmpty ∨ f.confirmedSeller.isEmpty ∨ f.confirmedOfferPrice.isNone then
    some (.reject422 "Missing confirmed offer pieces"
      "❌ Missing confirmed offer details (SKU / Confirmed Seller / Confirmed Offer Price). Confirm an offer first."
      "Closing")
  else none

/-- Selling-VAT stage (src/server.js lines 383-447): map the operator selection,
then the Margin structural rule, then the VAT0 buyer checks.  Returns the
mapped invoice VAT type or the 422 rejection. -/
def vatStage (f : ExternalFields) : Except FinalizeResult String :=
  let sellingVatSel := f.sellingVatType
  let isPrivateSel := toLowerStr (sellingVatSel.getD "") = "private"
  match mapSellingVat f.offerVatType sellingVatSel with
  | none => .error (.reject422 "Invalid Selling VAT Type"
      "❌ Selling VAT Type is missing or invalid." "Closing")
  | some mappedVat =>
    if containsSubstr (toUpperStr (f.offerVatType.getD "")) "MARGIN" then
      if ¬isPrivateSel ∧ toUpperStr (sellingVatSel.getD "") ≠ "MARGIN" then
        .error (.reject422 "Margin must be sold as Margin"
          "❌ Margin goods must be invoiced as Margin." "Closing")
      else .ok mappedVat
    else
      if mappedVat = "VAT0" then
        if isNL f.buyerCountry then
          .error (.reject422 "VAT0 not allowed for NL buyer"
            "❌ VAT 0% selected but Buyer Country is NL. Use VAT 21% or adjust buyer." "Closing")
        else if f.buyerVatId.getD "" = "" then
          .error (.reject422 "VAT0 requires Buyer VAT ID"
            "❌ VAT 0% selected but Buyer VAT ID is missing. Provide VAT ID or use VAT 21%." "Closing")
        else .ok mappedVat
      else .ok mappedVat

/-- `minByVat[mappedVat]` lookup (src/server.js lines 462-467). -/
def minByVat (f : ExternalFields) (mappedVat : String) : Option ℚ :=
  if mappedVat = "VAT0" then f.minVat0
  else if mappedVat = "VAT21" then f.minVat21
  else if mappedVat = "Margin" then f.minMargin
  else none

/-- Feedback text of the minimum-floor rejection (src/server.js line 471). -/
def belowMinFeedback (finalDeal : ℚ) (mappedVat : String) (minForMapped : ℚ) : String :=
  "❌ Final Deal Price (" ++ euro finalDeal ++ ") is lower than the minimum for " ++
  mappedVat ++ " (" ++ euro minForMapped ++ "). Ask Admin for approval or adjust Selling VAT Type/price."

/-- Minimum-floor stage (src/server.js lines 449-475). -/
def floorStage (f : ExternalFields) (mappedVat : String) : Option FinalizeResult :=
  match minByVat f mappedVat, f.finalDealPrice with
  | some minForMapped, some finalDeal =>
    if finalDeal < minForMapped ∧ ¬f.exceptionApproved then
      some (.reject422 "Below minimum for selected Selling VAT Type"
        (belowMinFeedback finalDeal mappedVat minForMapped) "Closing")
    else none
  | _, _ => none

/-- Sales record written by `createSalesFromExternal` (src/lib/airtable.js
lines 382-427), restricted to the fields the claims are about: the VAT Type
single-select (the override from the finalize route) and the Final Selling
Price (`round2` of the Confirmed Offer Price). -/
structure SaleRecord where
  vatType : String
  finalPrice : Option ℚ
deriving DecidableEq, Repr

/-- The whole finalize pipeline on one record (src/server.js lines 348-518),
threading the list of existing Sales records as the store state.  Collaborator
calls are assumed to succeed here (their failure modes are modelled separately
in `createSalesFromExternal` below); on full success one Sales record is
appended — the pipeline never reads the existing Sales list. -/
def finalizeExternalDeal (f : ExternalFields) (sales : List SaleRecord) :
    FinalizeResult × List SaleRecord :=
  match presenceStage f with
  | some r => (r, sales)
  | none =>
  match confirmedStage f with
  | some r => (r, sales)
  | none =>
  match vatStage f with
  | .error r => (r, sales)
  | .ok mappedVat =>
  match floorStage f mappedVat with
  | some r => (r, sales)
  | none =>
    (.ok ("✅ Deal processed. Sales created: " ++ toString sales.length ++
        ". Affiliate Sales created successfully.") "Deal Processed",
     sales ++ [{ vatType := mappedVat, finalPrice := f.confirmedOfferPrice.map round2 }])

/-! ## Button-interaction handler (src/server.js lines 311-342) -/

/-- The event delivered by `onButtonInteraction` for one button click
(src/lib/discord.js lines 27-43): the parsed `custom_id` fields plus the
channel/message of the clicked message. -/
structure ButtonEvent where
  action : String
  orderRecId : String
  sellerId : String
  inventoryRecordId : String
  offerPrice : ℚ
  vatLabel : String
  channelId : String
  messageId : String
deriving DecidableEq, Repr

/-- One outward effect of the handler: either a `setExternalConfirmation`
write to the External Sales Log record, or a `disableMessageButtonsGateway`
edit of one message. -/
inductive Effect
  | setConfirmation (orderRecId : String) (confirmedPrice : ℚ) (confirmedSellerRecId : String)
      (statusName : String) (offerVatTypeLabel : String) (dealStatusName : String)
      (confirmedInventoryRecId : String)
  | disableMessage (channelId : String) (messageId : String) (note : String)
deriving DecidableEq, Repr

/-- The button-interaction handler (src/server.js lines 311-342) as the list of
effects it issues.  `confirmedSellerRecId` is the result of
`getInventoryLinkedSellerId`, `msgs` the `(channelId, messageId)` pairs from
`listOfferMessagesForOrder`.  The handler reads nothing else: in particular it
never reads the order's current confirmation state. -/
def onButtonInteractionHandler (confirmedSellerRecId : String)
    (msgs : List (String × String)) (ev : ButtonEvent) : List Effect :=
  if ev.action = "deny_ext" then
    [Effect.disableMessage ev.channelId ev.messageId ("❌ " ++ ev.sellerId ++ " denied / not available.")]
  else if ev.action ≠ "confirm_ext" then []
  else
    [Effect.setConfirmation ev.orderRecId ev.offerPrice confirmedSellerRecId
       "Confirmed" ev.vatLabel "Closing" ev.inventoryRecordId,
     Effect.disableMessage ev.channelId ev.messageId ("✅ Confirmed by " ++ ev.sellerId ++ ".")]
    ++ (msgs.filter (fun m => !(m.1 = ev.channelId ∧ m.2 = ev.messageId))).map
        (fun m => Effect.disableMessage m.1 m.2 "✅ Confirmed by another seller. Offers closed.")

/-- Number of `setExternalConfirmation` writes in a list of effects. -/
def confirmationWrites (effs : List Effect) : Nat :=
  effs.countP (fun e => match e with
    | Effect.setConfirmation _ _ _ _ _ _ _ => true
    | Effect.disableMessage _ _ _ => false)

/-- Whether some disable-message effect's note contains the given text. -/
def someNoteContains (effs : List Effect) (text : String) : Bool :=
  effs.any (fun e => match e with
    | Effect.setConfirmation _ _ _ _ _ _ _ => false
    | Effect.disableMessage _ _ note => containsSubstr note text)

/-! ## External-offers fan-out (POST /external-offers, src/server.js lines 194-283) -/

/-- One seller entry of the /external-offers payload, together with outcome
oracles for the two collaborator calls made for that seller.  The prices are
the `Number(...)` parses (`none` models a non-finite result); `sendOutcome` is
what `sendExternalOfferMessageGateway`/`sendExternalConfirmationMessageGateway`
does (throw, or return `(channelId, messageId)`); `logOutcome` is what the
Airtable POST inside `logOfferMessage` does. -/
structure SellerPayload where
  sellerId : String
  sellerVatType : Option String
  sellerCountry : Option String
  sellerVatRatePct : Option ℚ
  sellerSuggestedRaw : Option ℚ
  baseOfferIncl : Option ℚ
  sendOutcome : Except String (String × String)
  logOutcome : Except String Unit

/-- A seller passes the finiteness gate of the fan-out loop
(src/server.js line 213). -/
def eligibleSeller (s : SellerPayload) : Bool :=
  s.sellerSuggestedRaw.isSome && s.baseOfferIncl.isSome

/-- One entry of the `results` array returned by the route. -/
structure SentEntry where
  sellerId : String
  messageId : String
  kind : String
  confirmedVatType : String
deriving DecidableEq, Repr

/-- `logOfferMessage` (src/lib/airtable.js lines 157-173): the Airtable POST is
wrapped in try/catch, so a failure is only warned about and never escapes. -/
def logOfferMessage (outcome : Except String Unit) : Unit :=
  match outcome with
  | .ok _ => ()
  | .error _ => ()

/-- The fan-out loop of POST /external-offers (src/server.js lines 206-276).
A seller with a non-finite price is skipped by `continue`; for the others the
decision engine picks the message kind and the message is sent and logged.
There is no per-seller try/catch: a throw from the send call escapes the loop
(to the route's outer catch). -/
def processSellers : List SellerPayload → Except String (List SentEntry)
  | [] => .ok []
  | s :: rest =>
    match s.sellerSuggestedRaw, s.baseOfferIncl with
    | some sellerSuggested, some ourOfferIncl =>
      let d := decideModeAndDisplay
        { vatTypeRaw := s.sellerVatType, sellerCountry := s.sellerCountry,
          sellerVatPct := s.sellerVatRatePct,
          sellerSuggestedRaw := sellerSuggested, ourOfferIncl := ourOfferIncl }
      match s.sendOutcome with
      | .error e => .error e
      | .ok (_channelId, messageId) =>
        let _ := logOfferMessage s.logOutcome
        match processSellers rest with
        | .error e => .error e
        | .ok tail =>
          .ok ({ sellerId := s.sellerId, messageId := messageId,
                 kind := if d.mode = Mode.offer then "offer" else "confirm",
                 confirmedVatType := d.confirmedVatType } :: tail)
    | _, _ => processSellers rest

/-- HTTP response of POST /external-offers. -/
inductive OffersResponse
  | badRequest
  | serverError (msg : String)
  | ok (sentCount : Nat) (sent : List SentEntry)
deriving DecidableEq, Repr

/-- POST /external-offers (src/server.js lines 194-283): validate the payload,
run the fan-out loop inside the route-level try/catch, and report either the
summary or a 500 built from the escaped error. -/
def externalOffers (orderRecId : Option String) (sellers : List SellerPayload) :
    OffersResponse :=
  if orderRecId.isNone ∨ sellers.isEmpty then .badRequest
  else
    match processSellers sellers with
    | .error e => .serverError e
    | .ok results => .ok results.length results

/-! ## Inventory decrement and resolution (src/lib/airtable.js lines 270-372, 382-427) -/

/-- Outcome of `decrementInventoryQuantity`: early return on a missing id,
a successful PATCH of the new quantity, or a swallowed error (warning only). -/
inductive DecrementOutcome
  | skipped
  | wrote (newQty : ℚ)
  | warned
deriving DecidableEq, Repr

/-- The quantity value a decrement writes (src/lib/airtable.js line 278):
`Math.max(0, cur - amount)`. -/
def decrementNext (cur amount : ℚ) : ℚ := max 0 (cur - amount)

/-- `decrementInventoryQuantity` (src/lib/airtable.js lines 270-289).
`getQty` models the GET of the inventory record (`.ok q` with `q` the
`asNumber` parse of its Quantity, `.error` a throw); `patchFails` models the
PATCH throwing.  The whole body is wrapped in try/catch: every error becomes a
warning, none escapes. -/
def decrementInventoryQuantity (inventoryId : Option String)
    (getQty : Except String (Option ℚ)) (patchFails : Bool) (amount : ℚ) :
    DecrementOutcome :=
  match inventoryId with
  | none => .skipped
  | some _ =>
    match getQty with
    | .error _ => .warned
    | .ok q =>
      let cur := q.getD 0
      if patchFails then .warned else .wrote (decrementNext cur amount)

/-- Collaborator oracles for `resolveConfirmedInventoryIdForExternal`:
`storedExists` is whether `tryGetInventoryById` finds the stored Confirmed
Inventory Unit (its own errors are caught and count as not found);
`searchOutcome` is what `findInventoryBySellerAndStock` does — it may throw,
and nothing catches that throw. -/
structure ResolveOracle where
  storedExists : Bool
  searchOutcome : Except String (Option String)

/-- The fallback search step (src/lib/airtable.js lines 352-371): pull seller
and stock-level links from the External record and query Inventory; without
either link the search is skipped and resolution yields null. -/
def fallbackInventorySearch (f : ExternalFields) (o : ResolveOracle) :
    Except String (Option String) :=
  let sellerId := f.confirmedSeller.head?
  let stockLevelId := f.stockLevelsLink.head?
  if sellerId.isNone ∧ stockLevelId.isNone then .ok none
  else o.searchOutcome

/-- `resolveConfirmedInventoryIdForExternal` (src/lib/airtable.js lines
338-372): use the stored Confirmed Inventory Unit if it still resolves,
otherwise fall back to the seller + stock-level search.  A throw from the
fallback search propagates. -/
def resolveConfirmedInventoryIdForExternal (f : ExternalFields) (o : ResolveOracle) :
    Except String (Option String) :=
  match f.confirmedInventory with
  | some invId =>
    if o.storedExists then .ok (some invId)
    else fallbackInventorySearch f o
  | none => fallbackInventorySearch f o

/-- Collaborator oracles for `createSalesFromExternal`: the resolution oracles,
the Sales POST (the structured/plain single-select encodings are modelled as
one combined outcome carrying the new record id), and the decrement oracles. -/
structure CreateSalesOracle where
  resolveO : ResolveOracle
  postOutcome : Except String Nat
  decGet : Except String (Option ℚ)
  decPatchFails : Bool

/-- `createSalesFromExternal` (src/lib/airtable.js lines 382-427): resolve the
inventory unit (before anything is created), POST the Sales record, then — if
an inventory unit was resolved — decrement its quantity by 1.  The decrement's
outcome never influences the returned Sales id. -/
def createSalesFromExternal (f : ExternalFields) (o : CreateSalesOracle) :
    Except String (Nat × DecrementOutcome) :=
  match resolveConfirmedInventoryIdForExternal f o.resolveO with
  | .error e => .error e
  | .ok confirmedInventoryId =>
    match o.postOutcome with
    | .error e => .error e
    | .ok salesId =>
      .ok (salesId,
        match confirmedInventoryId with
        | some invId => decrementInventoryQuantity (some invId) o.decGet o.decPatchFails 1
        | none => DecrementOutcome.skipped)

/-! ## Helper lemmas -/

/-- Every string contains itself as a substring. -/
lemma containsSubstr_self (s : String) : containsSubstr s s = true := by
  simp [containsSubstr]

/-- `confirmationWrites` is additive over concatenation. -/
lemma confirmationWrites_append (a b : List Effect) :
    confirmationWrites (a ++ b) = confirmationWrites a + confirmationWrites b := by
  simp [confirmationWrites, List.countP_append]

/-- A list of disable-message effects contains no confirmation write. -/
lemma confirmationWrites_disables (l : List (String × String)) (note : String) :
    confirmationWrites (l.map (fun m => Effect.disableMessage m.1 m.2 note)) = 0 := by
  induction l with
  | nil => rfl
  | cons a t ih => simp [confirmationWrites, List.countP_cons]

/-- A presence-stage rejection is never a success result. -/
lemma presenceStage_not_ok {f : ExternalFields} {r : FinalizeResult}
    (h : presenceStage f = some r) : r.isOk = false := by
  simp only [presenceStage] at h
  repeat' split at h
  all_goals
    first
      | (simp only [Option.some_inj, Except.error.injEq] at h; subst h; rfl)
      | simp at h

/-- A confirmed-offer-stage rejection is never a success result. -/
lemma confirmedStage_not_ok {f : ExternalFields} {r : FinalizeResult}
    (h : confirmedStage f = some r) : r.isOk = false := by
  simp only [confirmedStage] at h
  repeat' split at h
  all_goals
    first
      | (simp only [Option.some_inj, Except.error.injEq] at h; subst h; rfl)
      | simp at h

/-- A VAT-stage rejection is never a success result. -/
lemma vatStage_not_ok {f : ExternalFields} {r : FinalizeResult}
    (h : vatStage f = .error r) : r.isOk = false := by
  simp only [vatStage] at h
  repeat' split at h
  all_goals
    first
      | (simp only [Option.some_inj, Except.error.injEq] at h; subst h; rfl)
      | simp at h

/-- A floor-stage rejection is never a success result. -/
lemma floorStage_not_ok {f : ExternalFields} {mv : String} {r : FinalizeResult}
    (h : floorStage f mv = some r) : r.isOk = false := by
  simp only [floorStage] at h
  repeat' split at h
  all_goals
    first
      | (simp only [Option.some_inj, Except.error.injEq] at h; subst h; rfl)
      | simp at h

/-- The mode ternary of src/server.js line 160, in isolation. -/
lemma mode_ite_spec (a b : ℚ) :
    ((if a < b then Mode.offer else Mode.confirm) = Mode.offer ↔ a < b) ∧
    (a = b → (if a < b then Mode.offer else Mode.confirm) = Mode.confirm) := by
  constructor
  · split <;> simp_all
  · intro he; subst he; simp

/-! ## Claims -/

/-- C5: the returned mode is "offer" iff the regime-adjusted house basis is
strictly below the regime-adjusted seller basis; equal bases give "confirm".
The comparison is the exact (unrounded) comparison of the decision bases —
the embedding computes with exact rationals and `decideModeAndDisplay`
applies no rounding. -/
theorem C5_mode_decision (i : DecideInput) :
    ((decideModeAndDisplay i).mode = Mode.offer ↔
      (decideModeAndDisplay i).basisOurs < (decideModeAndDisplay i).basisSeller) ∧
    ((decideModeAndDisplay i).basisOurs = (decideModeAndDisplay i).basisSeller →
      (decideModeAndDisplay i).mode = Mode.confirm) := by
  unfold decideModeAndDisplay
  cases hM : containsSubstr (normalizeVatTag i.vatTypeRaw) "MARGIN" <;>
    cases h21 : containsSubstr (normalizeVatTag i.vatTypeRaw) "VAT21" <;>
      cases h0 : containsSubstr (normalizeVatTag i.vatTypeRaw) "VAT0" <;>
        cases hNL : isNL i.sellerCountry <;>
          simp only [hM, h21, h0, hNL] <;> exact mode_ite_spec _ _

/-- Witness for C5 at a concrete tie: seller asks 100, we offer 100 under
VAT21 — equal bases, so the mode is "confirm". -/
theorem C5_mode_decision_witness :
    (decideModeAndDisplay
      { vatTypeRaw := some "VAT21", sellerCountry := some "DE", sellerVatPct := some 21,
        sellerSuggestedRaw := 100, ourOfferIncl := 100 }).mode = Mode.confirm :=
  (C5_mode_decision _).2 (by decide)

/-- C6: under a VAT0 regime tag, an NL seller gets the uplifted display amount
and seller basis `sellerSuggestedRaw * (1 + vatFraction)` with confirmed type
VAT21; a non-NL seller gets house amount and basis `ourOfferIncl / (1 +
vatFraction)` with confirmed type VAT0. -/
theorem C6_vat0_basis (i : DecideInput)
    (hm : containsSubstr (normalizeVatTag i.vatTypeRaw) "MARGIN" = false)
    (h21 : containsSubstr (normalizeVatTag i.vatTypeRaw) "VAT21" = false)
    (h0 : containsSubstr (normalizeVatTag i.vatTypeRaw) "VAT0" = true) :
    (isNL i.sellerCountry = true →
      (decideModeAndDisplay i).display.yourAmount =
        i.sellerSuggestedRaw * (1 + toPct01 (i.sellerVatPct.getD 21)) ∧
      (decideModeAndDisplay i).basisSeller =
        i.sellerSuggestedRaw * (1 + toPct01 (i.sellerVatPct.getD 21)) ∧
      (decideModeAndDisplay i).confirmedVatType = "VAT21") ∧
    (isNL i.sellerCountry = false →
      (decideModeAndDisplay i).display.ourAmount =
        i.ourOfferIncl / (1 + toPct01 (i.sellerVatPct.getD 21)) ∧
      (decideModeAndDisplay i).basisOurs =
        i.ourOfferIncl / (1 + toPct01 (i.sellerVatPct.getD 21)) ∧
      (decideModeAndDisplay i).confirmedVatType = "VAT0") := by
  constructor <;> intro hNL <;> simp [decideModeAndDisplay, hm, h21, h0, hNL]

/-- Witness for C6: a VAT0 tag yields confirmed type VAT21 for a Dutch seller
and VAT0 for a German seller. -/
theorem C6_vat0_basis_witness :
    (decideModeAndDisplay
      { vatTypeRaw := some "VAT0", sellerCountry := some "Netherlands", sellerVatPct := some 21,
        sellerSuggestedRaw := 100, ourOfferIncl := 125 }).confirmedVatType = "VAT21" ∧
    (decideModeAndDisplay
      { vatTypeRaw := some "VAT0", sellerCountry := some "Germany", sellerVatPct := some 21,
        sellerSuggestedRaw := 100, ourOfferIncl := 125 }).confirmedVatType = "VAT0" :=
  ⟨((C6_vat0_basis _ (by decide) (by decide) (by decide)).1 (by decide)).2.2,
   ((C6_vat0_basis _ (by decide) (by decide) (by decide)).2 (by decide)).2.2⟩

/-- C9: Netherlands classification is substring-based — any string whose
trimmed lower-cased form equals one of the known spellings or contains
"neder"/"nether"/the NL flag is classified NL; null/empty are not; and the
same `isNL` classifier drives both the seller-side VAT0 uplift decision in
`decideModeAndDisplay` and the buyer-side VAT0 rejection in the finalize
VAT stage. -/
theorem C9_isNL_substring :
    (∀ s : String,
        (toLowerStr (trimStr s) = "nl" ∨ toLowerStr (trimStr s) = "nld" ∨
         toLowerStr (trimStr s) = "nederland" ∨ toLowerStr (trimStr s) = "netherlands" ∨
         toLowerStr (trimStr s) = "the netherlands" ∨
         containsSubstr (toLowerStr (trimStr s)) "neder" = true ∨
         containsSubstr (toLowerStr (trimStr s)) "nether" = true ∨
         containsSubstr (toLowerStr (trimStr s)) "🇳🇱" = true) →
        isNL (some s) = true) ∧
    (isNL none = false ∧ isNL (some "") = false) ∧
    (∀ i : DecideInput,
        containsSubstr (normalizeVatTag i.vatTypeRaw) "MARGIN" = false →
        containsSubstr (normalizeVatTag i.vatTypeRaw) "VAT21" = false →
        containsSubstr (normalizeVatTag i.vatTypeRaw) "VAT0" = true →
        ((decideModeAndDisplay i).confirmedVatType = "VAT21" ↔ isNL i.sellerCountry = true)) ∧
    (∀ f : ExternalFields,
        containsSubstr (toUpperStr (f.offerVatType.getD "")) "MARGIN" = false →
        mapSellingVat f.offerVatType f.sellingVatType = some "VAT0" →
        (vatStage f = .error (.reject422 "VAT0 not allowed for NL buyer"
            "❌ VAT 0% selected but Buyer Country is NL. Use VAT 21% or adjust buyer." "Closing")
          ↔ isNL f.buyerCountry = true)) := by
  refine ⟨?_, ⟨rfl, rfl⟩, ?_, ?_⟩
  · intro s h
    rcases eq_or_ne s "" with rfl | hs
    · exfalso; revert h; decide
    · simp only [isNL, if_neg hs]
      by_cases he : toLowerStr (trimStr s) = "nl" ∨ toLowerStr (trimStr s) = "nld" ∨
          toLowerStr (trimStr s) = "nederland" ∨ toLowerStr (trimStr s) = "netherlands" ∨
          toLowerStr (trimStr s) = "the netherlands"
      · simp [he]
      · rcases h with h | h | h | h | h | h | h | h <;> simp_all
  · intro i hm h21 h0
    cases hNL : isNL i.sellerCountry <;>
      simp [decideModeAndDisplay, hm, h21, h0, hNL]
  · intro f hoff hmap
    simp only [vatStage, hmap, hoff]
    cases hNL : isNL f.buyerCountry <;> simp [hNL]
    split <;> simp

/-- Witness for C9: a string merely containing "neder" counts as NL, and a
finalize request with mapped VAT0 and such a buyer country is rejected with
the NL-buyer error. -/
theorem C9_isNL_substring_witness :
    isNL (some "Koninkrijk der Nederlanden") = true ∧
    (vatStage
        { finalDealPrice := some 120, buyer := ["b"], shippingLabel := ["l"], sku := ["k"],
          confirmedSeller := ["s"], confirmedOfferPrice := some 90,
          offerVatType := some "VAT21", sellingVatType := some "VAT0",
          buyerCountry := some "Koninkrijk der Nederlanden", buyerVatId := some "NL123",
          exceptionApproved := false, minVat0 := none, minVat21 := none, minMargin := none,
          confirmedInventory := none, stockLevelsLink := [] } = .error
          (.reject422 "VAT0 not allowed for NL buyer"
            "❌ VAT 0% selected but Buyer Country is NL. Use VAT 21% or adjust buyer." "Closing")) :=
  ⟨C9_isNL_substring.1 "Koninkrijk der Nederlanden" (by decide),
   (C9_isNL_substring.2.2.2 _ (by decide) (by decide)).2
     (C9_isNL_substring.1 "Koninkrijk der Nederlanden" (by decide))⟩

/-- C10: with a non-Margin confirmed regime, the operator selections are
accepted case-insensitively also in their "VAT 21%"/"VAT 0%" spellings, map
to VAT21/VAT0 respectively, "Private" maps to VAT21, and any other (missing
or unrecognized) selection makes `mapSellingVat` return null, upon which the
finalize pipeline rejects with a 422, the feedback "❌ Selling VAT Type is
missing or invalid." and Deal Status reset to Closing. -/
theorem C10_selling_vat_mapping (off sel : Option String) (f : ExternalFields)
    (sales : List SaleRecord)
    (hnm : containsSubstr (toUpperStr (off.getD "")) "MARGIN" = false) :
    (toUpperStr (sel.getD "") = "VAT21" ∨ toUpperStr (sel.getD "") = "VAT 21%" →
      mapSellingVat off sel = some "VAT21") ∧
    (toUpperStr (sel.getD "") = "VAT0" ∨ toUpperStr (sel.getD "") = "VAT 0%" →
      mapSellingVat off sel = some "VAT0") ∧
    (toUpperStr (sel.getD "") = "PRIVATE" → mapSellingVat off sel = some "VAT21") ∧
    (toUpperStr (sel.getD "") ∉
        (["PRIVATE", "VAT21", "VAT 21%", "VAT0", "VAT 0%", "MARGIN"] : List String) →
      mapSellingVat off sel = none) ∧
    (presenceStage f = none → confirmedStage f = none →
      mapSellingVat f.offerVatType f.sellingVatType = none →
      finalizeExternalDeal f sales = (.reject422 "Invalid Selling VAT Type"
        "❌ Selling VAT Type is missing or invalid." "Closing", sales)) := by
  refine ⟨?_, ?_, ?_, ?_, ?_⟩
  · rintro (h | h) <;> simp [mapSellingVat, hnm, h]
  · rintro (h | h) <;> simp [mapSellingVat, hnm, h]
  · intro h; simp [mapSellingVat, hnm, h]
  · intro h
    simp only [List.mem_cons, List.mem_singleton, not_or] at h
    obtain ⟨h1, h2, h3, h4, h5, h6, _⟩ := h
    simp [mapSellingVat, hnm, h1, h2, h3, h4, h5, h6]
  · intro hp hc hmap
    simp [finalizeExternalDeal, hp, hc, vatStage, hmap]

/-- Witness for C10 at concrete selections under a VAT21 confirmed regime. -/
theorem C10_selling_vat_mapping_witness :
    mapSellingVat (some "VAT21") (some "vat 21%") = some "VAT21" ∧
    mapSellingVat (some "VAT21") (some "Vat 0%") = some "VAT0" ∧
    mapSellingVat (some "VAT21") (some "Private") = some "VAT21" ∧
    mapSellingVat (some "VAT21") none = none ∧
    finalizeExternalDeal
        { finalDealPrice := some 120, buyer := ["b"], shippingLabel := ["l"], sku := ["k"],
          confirmedSeller := ["s"], confirmedOfferPrice := some 90,
          offerVatType := some "VAT21", sellingVatType := none,
          buyerCountry := none, buyerVatId := none,
          exceptionApproved := false, minVat0 := none, minVat21 := none, minMargin := none,
          confirmedInventory := none, stockLevelsLink := [] } [] =
      (.reject422 "Invalid Selling VAT Type"
        "❌ Selling VAT Type is missing or invalid." "Closing", []) :=
  ⟨(C10_selling_vat_mapping (some "VAT21") (some "vat 21%") default [] (by decide)).1
      (Or.inr (by decide)),
   (C10_selling_vat_mapping (some "VAT21") (some "Vat 0%") default [] (by decide)).2.1
      (Or.inr (by decide)),
   (C10_selling_vat_mapping (some "VAT21") (some "Private") default [] (by decide)).2.2.1
      (by decide),
   (C10_selling_vat_mapping (some "VAT21") none default [] (by decide)).2.2.2.1
      (by decide),
   (C10_selling_vat_mapping (some "VAT21") none _ [] (by decide)).2.2.2.2
      (by decide) (by decide) (by decide)⟩

/-- A concrete External record whose floor for the mapped VAT21 regime is
100.00 and whose final price is 99.99, without exception approval. -/
def c7Below : ExternalFields :=
  { finalDealPrice := some 99.99, buyer := ["b"], shippingLabel := ["l"], sku := ["k"],
    confirmedSeller := ["s"], confirmedOfferPrice := some 90,
    offerVatType := some "VAT21", sellingVatType := some "VAT21",
    buyerCountry := none, buyerVatId := none, exceptionApproved := false,
    minVat0 := none, minVat21 := some 100, minMargin := none,
    confirmedInventory := none, stockLevelsLink := [] }

/-- The same record with the final price exactly at the 100.00 floor. -/
def c7At : ExternalFields := { c7Below with finalDealPrice := some 100 }

/-- C7: when the minimum price keyed by the mapped invoice VAT type is present
and the final deal price is strictly below it without an approved exception,
finalize rejects with a 422 and Deal Status reset to Closing; a final price
exactly equal to the floor passes the check. -/
theorem C7_minimum_floor (f : ExternalFields) (sales : List SaleRecord) (mv : String)
    (m d : ℚ)
    (hp : presenceStage f = none) (hc : confirmedStage f = none)
    (hv : vatStage f = .ok mv) (hm : minByVat f mv = some m)
    (hd : f.finalDealPrice = some d) :
    (d < m → f.exceptionApproved = false →
      finalizeExternalDeal f sales =
        (.reject422 "Below minimum for selected Selling VAT Type"
          (belowMinFeedback d mv m) "Closing", sales)) ∧
    (d = m → (finalizeExternalDeal f sales).1.isOk = true) := by
  constructor
  · intro hlt hex
    simp [finalizeExternalDeal, hp, hc, hv, floorStage, hm, hd, hlt, hex]
  · intro he; subst he
    simp [finalizeExternalDeal, hp, hc, hv, floorStage, hm, hd, lt_irrefl,
      FinalizeResult.isOk]

/-- Witness for C7: floor 100.00 — price 99.99 without exception is rejected
with Deal Status Closing; price 100.00 is accepted. -/
theorem C7_minimum_floor_witness :
    finalizeExternalDeal c7Below [] =
      (.reject422 "Below minimum for selected Selling VAT Type"
        (belowMinFeedback 99.99 "VAT21" 100) "Closing", []) ∧
    (finalizeExternalDeal c7At []).1.isOk = true :=
  ⟨(C7_minimum_floor c7Below [] "VAT21" 100 99.99 rfl rfl rfl rfl rfl).1
      (by norm_num) rfl,
   (C7_minimum_floor c7At [] "VAT21" 100 100 rfl rfl rfl rfl rfl).2 rfl⟩

/-- A concrete External record that passes every finalize validation stage
(no floors configured). -/
def c4Rec : ExternalFields := { c7Below with minVat21 := none }

/-- C4: the finalize pipeline has no "already finalized" guard — its decision
never depends on the existing Sales store; every fully-successful invocation
appends one Sale, so two successful invocations append two; a validation
failure leaves the store untouched. -/
theorem C4_finalize_not_idempotent (f : ExternalFields) (sales : List SaleRecord) :
    ((finalizeExternalDeal f sales).1.isOk = true →
      (finalizeExternalDeal f sales).2.length = sales.length + 1 ∧
      (finalizeExternalDeal f ((finalizeExternalDeal f sales).2)).2.length =
        sales.length + 2) ∧
    ((finalizeExternalDeal f sales).1.isOk = false →
      (finalizeExternalDeal f sales).2 = sales) ∧
    (∀ sales2 : List SaleRecord,
      (finalizeExternalDeal f sales).1.isOk = (finalizeExternalDeal f sales2).1.isOk) := by
  cases hp : presenceStage f with
  | some r => simp [finalizeExternalDeal, hp, presenceStage_not_ok hp]
  | none =>
    cases hc : confirmedStage f with
    | some r => simp [finalizeExternalDeal, hp, hc, confirmedStage_not_ok hc]
    | none =>
      cases hv : vatStage f with
      | error r => simp [finalizeExternalDeal, hp, hc, hv, vatStage_not_ok hv]
      | ok mv =>
        cases hf : floorStage f mv with
        | some r => simp [finalizeExternalDeal, hp, hc, hv, hf, floorStage_not_ok hf]
        | none =>
          simp [finalizeExternalDeal, hp, hc, hv, hf, FinalizeResult.isOk]
          try omega

/-- Witness for C4: on a record passing all validations, two successive
finalize invocations starting from an empty Sales store leave two Sales. -/
theorem C4_finalize_not_idempotent_witness :
    (finalizeExternalDeal c4Rec ((finalizeExternalDeal c4Rec []).2)).2.length = 2 :=
  ((C4_finalize_not_idempotent c4Rec []).1 rfl).2

/-- A concrete confirm-button event for an order. -/
def c1Event : ButtonEvent :=
  { action := "confirm_ext", orderRecId := "ordA", sellerId := "SE-1",
    inventoryRecordId := "inv1", offerPrice := 100, vatLabel := "VAT21",
    channelId := "ch1", messageId := "m2" }

/-- Counterexample to C1: the button-interaction handler takes no notice of any
previously written confirmation (its inputs do not even include the order's
current state), so also for an order that already has confirmed terms a
confirm event writes `setExternalConfirmation` again, the clicked message is
disabled with a "Confirmed by ..." notice — never an "already matched" one —
and two successive confirm invocations produce two confirmation writes, not
one. -/
theorem C1_counterexample :
    confirmationWrites
        (onButtonInteractionHandler "recSeller1" [("ch1", "m1"), ("ch1", "m2")] c1Event) = 1 ∧
    someNoteContains
        (onButtonInteractionHandler "recSeller1" [("ch1", "m1"), ("ch1", "m2")] c1Event)
        "already matched" = false ∧
    confirmationWrites
        (onButtonInteractionHandler "recSeller1" [("ch1", "m1"), ("ch1", "m2")] c1Event ++
         onButtonInteractionHandler "recSeller1" [("ch1", "m1"), ("ch1", "m2")] c1Event) = 2 := by
  decide

/-- C1 amended: the handler has no idempotency guard.  Every `confirm_ext`
event — regardless of any previously written confirmation — performs exactly
one confirmation write, disables the clicked message with a "✅ Confirmed by
<seller>." notice, and two successive confirm invocations for the same order
write the Confirmation twice (the second overwriting the first). -/
theorem C1_amended_unconditional_rewrite (sellerRec : String)
    (msgs : List (String × String)) (ev : ButtonEvent)
    (h : ev.action = "confirm_ext") :
    confirmationWrites (onButtonInteractionHandler sellerRec msgs ev) = 1 ∧
    someNoteContains (onButtonInteractionHandler sellerRec msgs ev)
      ("✅ Confirmed by " ++ ev.sellerId ++ ".") = true ∧
    confirmationWrites (onButtonInteractionHandler sellerRec msgs ev ++
      onButtonInteractionHandler sellerRec msgs ev) = 2 := by
  refine ⟨?_, ?_, ?_⟩ <;>
    simp [onButtonInteractionHandler, h, confirmationWrites, someNoteContains,
      List.countP_cons, List.countP_append, List.countP_map, List.any_append,
      List.any_map, Function.comp_def, containsSubstr_self]

/-- Witness for C1 amended at the concrete event. -/
theorem C1_amended_unconditional_rewrite_witness :
    confirmationWrites
        (onButtonInteractionHandler "recSeller1" [("ch1", "m1")] c1Event ++
         onButtonInteractionHandler "recSeller1" [("ch1", "m1")] c1Event) = 2 :=
  (C1_amended_unconditional_rewrite "recSeller1" [("ch1", "m1")] c1Event rfl).2.2

/-- A concrete Margin-regime External record with operator selection
"Private" and no floors. -/
def c2Base : ExternalFields :=
  { finalDealPrice := some 120, buyer := ["b"], shippingLabel := ["l"], sku := ["k"],
    confirmedSeller := ["s"], confirmedOfferPrice := some 80,
    offerVatType := some "Margin", sellingVatType := some "Private",
    buyerCountry := none, buyerVatId := none, exceptionApproved := false,
    minVat0 := none, minVat21 := none, minMargin := none,
    confirmedInventory := none, stockLevelsLink := [] }

/-- The same Margin-regime record with the operator selection left unset. -/
def c2Unset : ExternalFields := { c2Base with sellingVatType := none }

/-- Counterexample to C2: under a Margin confirmed regime, an operator
selection of "Private" is NOT rejected — the pipeline runs to success with
invoice type Margin — while an UNSET selection is rejected by the structural
check ("Margin goods must be invoiced as Margin"), the opposite of what the
claim states for both cases. -/
theorem C2_counterexample :
    (finalizeExternalDeal c2Base []).1 =
      FinalizeResult.ok
        "✅ Deal processed. Sales created: 0. Affiliate Sales created successfully."
        "Deal Processed" ∧
    (finalizeExternalDeal c2Unset []).1 =
      FinalizeResult.reject422 "Margin must be sold as Margin"
        "❌ Margin goods must be invoiced as Margin." "Closing" :=
  ⟨rfl, rfl⟩

/-- Under a Margin offer regime the VAT stage reduces to the structural check:
non-Private, non-Margin selections are rejected, everything else passes with
the invoice type Margin. -/
lemma vatStage_margin (f : ExternalFields)
    (hm : containsSubstr (toUpperStr (f.offerVatType.getD "")) "MARGIN" = true) :
    vatStage f =
      if ¬(toLowerStr (f.sellingVatType.getD "") = "private") ∧
          toUpperStr (f.sellingVatType.getD "") ≠ "MARGIN" then
        .error (.reject422 "Margin must be sold as Margin"
          "❌ Margin goods must be invoiced as Margin." "Closing")
      else .ok "Margin" := by
  simp only [vatStage, mapSellingVat, hm, if_true]

/-- C2 amended: for a confirmed Offer VAT Type of Margin, operator selection
VAT21 is rejected with a 422 ("Margin must be sold as Margin"); selections
Margin and Private both pass the VAT stage with invoice type Margin (Private
is exempted by the structural check); an unset selection maps to Margin but
is rejected with the same 422 by the structural check. -/
theorem C2_amended_margin_rule (f : ExternalFields) (sales : List SaleRecord)
    (hm : f.offerVatType = some "Margin")
    (hp : presenceStage f = none) (hc : confirmedStage f = none) :
    (f.sellingVatType = some "VAT21" →
      finalizeExternalDeal f sales =
        (.reject422 "Margin must be sold as Margin"
          "❌ Margin goods must be invoiced as Margin." "Closing", sales)) ∧
    (f.sellingVatType = some "Margin" → vatStage f = .ok "Margin") ∧
    (f.sellingVatType = some "Private" → vatStage f = .ok "Margin") ∧
    (f.sellingVatType = none →
      finalizeExternalDeal f sales =
        (.reject422 "Margin must be sold as Margin"
          "❌ Margin goods must be invoiced as Margin." "Closing", sales)) := by
  have hup : containsSubstr (toUpperStr (f.offerVatType.getD "")) "MARGIN" = true := by
    rw [hm]; decide
  refine ⟨?_, ?_, ?_, ?_⟩ <;> intro hsel
  · have hv := vatStage_margin f hup
    rw [hsel] at hv
    rw [if_pos (by decide)] at hv
    simp [finalizeExternalDeal, hp, hc, hv]
  · have hv := vatStage_margin f hup
    rw [hsel] at hv
    rwa [if_neg (by decide)] at hv
  · have hv := vatStage_margin f hup
    rw [hsel] at hv
    rwa [if_neg (by decide)] at hv
  · have hv := vatStage_margin f hup
    rw [hsel] at hv
    rw [if_pos (by decide)] at hv
    simp [finalizeExternalDeal, hp, hc, hv]

/-- Witness for C2 amended: "Private" passes the VAT stage of the concrete
Margin record, the unset selection is rejected. -/
theorem C2_amended_margin_rule_witness :
    vatStage c2Base = .ok "Margin" ∧
    finalizeExternalDeal c2Unset [] =
      (.reject422 "Margin must be sold as Margin"
        "❌ Margin goods must be invoiced as Margin." "Closing", []) :=
  ⟨(C2_amended_margin_rule c2Base [] rfl rfl rfl).2.2.1 rfl,
   (C2_amended_margin_rule c2Unset [] rfl rfl rfl).2.2.2 rfl⟩

/-- When every eligible seller's send succeeds, the fan-out loop completes and
returns one result entry per eligible seller. -/
lemma processSellers_all_ok (l : List SellerPayload)
    (h : ∀ t ∈ l, eligibleSeller t = true → ∃ ch mid, t.sendOutcome = .ok (ch, mid)) :
    ∃ entries, processSellers l = .ok entries ∧
      entries.length = (l.filter (fun t => eligibleSeller t)).length := by
  induction l with
  | nil => exact ⟨[], rfl, rfl⟩
  | cons s rest ih =>
    obtain ⟨tail, htail, hlen⟩ := ih (fun t ht he => h t (List.mem_cons_of_mem _ ht) he)
    cases hsug : s.sellerSuggestedRaw with
    | none =>
      have he : eligibleSeller s = false := by simp [eligibleSeller, hsug]
      refine ⟨tail, ?_, ?_⟩
      · simp only [processSellers, hsug, htail]
      · simp [List.filter_cons, he, hlen]
    | some a =>
      cases hofr : s.baseOfferIncl with
      | none =>
        have he : eligibleSeller s = false := by simp [eligibleSeller, hofr]
        refine ⟨tail, ?_, ?_⟩
        · simp only [processSellers, hsug, hofr, htail]
        · simp [List.filter_cons, he, hlen]
      | some b =>
        have he : eligibleSeller s = true := by simp [eligibleSeller, hsug, hofr]
        obtain ⟨ch, mid, hsend⟩ := h s (List.mem_cons_self s rest) he
        have hstep : processSellers (s :: rest) =
            .ok ({ sellerId := s.sellerId, messageId := mid,
                   kind := if (decideModeAndDisplay
                       { vatTypeRaw := s.sellerVatType, sellerCountry := s.sellerCountry,
                         sellerVatPct := s.sellerVatRatePct,
                         sellerSuggestedRaw := a, ourOfferIncl := b }).mode = Mode.offer
                     then "offer" else "confirm",
                   confirmedVatType := (decideModeAndDisplay
                       { vatTypeRaw := s.sellerVatType, sellerCountry := s.sellerCountry,
                         sellerVatPct := s.sellerVatRatePct,
                         sellerSuggestedRaw := a, ourOfferIncl := b }).confirmedVatType } :: tail) := by
          simp only [processSellers, hsug, hofr, hsend, htail]
        exact ⟨_, hstep, by simp [List.filter_cons, he, hlen]⟩

/-- A send failure for an eligible seller aborts the fan-out loop: the
exception propagates and no later seller is processed. -/
lemma processSellers_abort (pre : List SellerPayload) (s : SellerPayload)
    (post : List SellerPayload) (e : String)
    (hpre : ∀ t ∈ pre, eligibleSeller t = true → ∃ ch mid, t.sendOutcome = .ok (ch, mid))
    (hs : eligibleSeller s = true) (herr : s.sendOutcome = .error e) :
    processSellers (pre ++ s :: post) = .error e := by
  induction pre with
  | nil =>
    have hs' := hs
    simp only [eligibleSeller, Bool.and_eq_true, Option.isSome_iff_exists] at hs'
    obtain ⟨⟨a, ha⟩, ⟨b, hb⟩⟩ := hs'
    simp only [List.nil_append, processSellers, ha, hb, herr]
  | cons t rest ih =>
    have ihr : processSellers (List.append rest (s :: post)) = Except.error e :=
      ih (fun u hu he => hpre u (List.mem_cons_of_mem _ hu) he)
    cases hsug : t.sellerSuggestedRaw with
    | none =>
      simp only [List.cons_append, processSellers, hsug]
      exact ihr
    | some a =>
      cases hofr : t.baseOfferIncl with
      | none =>
        simp only [List.cons_append, processSellers, hsug, hofr]
        exact ihr
      | some b =>
        have he : eligibleSeller t = true := by simp [eligibleSeller, hsug, hofr]
        obtain ⟨ch, mid, hsend⟩ := hpre t (List.mem_cons_self t rest) he
        simp only [List.cons_append, processSellers, hsug, hofr, hsend, ihr]

/-- A seller that sends successfully, and one whose send throws. -/
def c3Ok : SellerPayload :=
  { sellerId := "S2", sellerVatType := some "VAT21", sellerCountry := some "DE",
    sellerVatRatePct := some 21, sellerSuggestedRaw := some 100, baseOfferIncl := some 90,
    sendOutcome := .ok ("ch2", "m2"), logOutcome := .ok () }

/-- A seller whose message send throws. -/
def c3Fail : SellerPayload :=
  { c3Ok with sellerId := "S1", sendOutcome := .error "discord send failed" }

/-- Counterexample to C3: the fan-out loop has no per-seller try/catch — with
two eligible sellers where the first seller's send throws, the whole request
aborts with a 500 and the second seller is never processed or counted
(the claim would require the response `.ok 1` with the second seller's
entry). -/
theorem C3_counterexample :
    externalOffers (some "ordB") [c3Fail, c3Ok] = .serverError "discord send failed" := rfl

/-- C3 amended: a seller whose prices are not finite is skipped and the rest
are processed; errors inside the message logger are swallowed; but an error
thrown while SENDING one eligible seller's message propagates out of the
loop — the route answers 500 and the remaining sellers are not processed.
Only when every eligible seller's send succeeds does the route return the
per-seller summary, counting exactly the eligible sellers. -/
theorem C3_amended_fanout (ord : String) (pre post : List SellerPayload)
    (s : SellerPayload) (e : String)
    (hpre : ∀ t ∈ pre, eligibleSeller t = true → ∃ ch mid, t.sendOutcome = .ok (ch, mid))
    (hs : eligibleSeller s = true) (herr : s.sendOutcome = .error e) :
    externalOffers (some ord) (pre ++ s :: post) = .serverError e ∧
    (∀ l : List SellerPayload, l ≠ [] →
      (∀ t ∈ l, eligibleSeller t = true → ∃ ch mid, t.sendOutcome = .ok (ch, mid)) →
      ∃ entries, externalOffers (some ord) l = .ok entries.length entries ∧
        entries.length = (l.filter (fun t => eligibleSeller t)).length) := by
  constructor
  · simp [externalOffers, processSellers_abort pre s post e hpre hs herr]
  · intro l hne hok
    obtain ⟨entries, hpr, hlen⟩ := processSellers_all_ok l hok
    exact ⟨entries, by simp [externalOffers, hne, hpr], hlen⟩

/-- Witness for C3 amended: with a succeeding seller first and the throwing
seller second the route answers 500; with only the succeeding seller it
returns a summary counting that one seller. -/
theorem C3_amended_fanout_witness :
    externalOffers (some "ordC") [c3Ok, c3Fail] = .serverError "discord send failed" ∧
    (∃ entries, externalOffers (some "ordC") [c3Ok] = .ok entries.length entries ∧
      entries.length = 1) := by
  have hpre : ∀ t ∈ [c3Ok], eligibleSeller t = true →
      ∃ ch mid, t.sendOutcome = .ok (ch, mid) := by
    intro t ht _
    simp only [List.mem_singleton] at ht
    subst ht
    exact ⟨"ch2", "m2", rfl⟩
  have h := C3_amended_fanout "ordC" [c3Ok] [] c3Fail "discord send failed" hpre rfl rfl
  refine ⟨h.1, ?_⟩
  obtain ⟨entries, he, hlen⟩ := h.2 [c3Ok] (by simp) hpre
  exact ⟨entries, he, by rw [hlen]; decide⟩

/-- A concrete External record whose stored Confirmed Inventory Unit no longer
resolves but whose Confirmed Seller link is present. -/
def c8Fields : ExternalFields := { c2Base with confirmedInventory := some "goneInv" }

/-- Counterexample to C8: (i) the decrement value `max(0, cur − 1)` exceeds a
NEGATIVE read quantity (read −5, written 0), so "never greater than the
quantity read" fails as stated; (ii) an error thrown by the fallback
inventory search during resolution is NOT caught — it propagates out of
`resolveConfirmedInventoryIdForExternal`, and since resolution runs before
the Sales POST it even prevents the Sale from being created. -/
theorem C8_counterexample :
    (decrementNext (-5) 1 = 0 ∧ ¬((0 : ℚ) ≤ -5)) ∧
    resolveConfirmedInventoryIdForExternal c8Fields
      ⟨false, .error "Airtable down"⟩ = .error "Airtable down" ∧
    createSalesFromExternal c8Fields
      ⟨⟨false, .error "Airtable down"⟩, .ok 7, .ok (some 3), false⟩ =
      .error "Airtable down" := by
  refine ⟨⟨?_, by norm_num⟩, rfl, rfl⟩
  unfold decrementNext
  norm_num [max_def]

/-- C8 amended: every decrement writes `max(0, cur − amount)`, which is never
negative, and is at most the read quantity whenever that read is
non-negative; every error inside the decrement itself (read or write) is
swallowed; when the stored inventory reference no longer resolves, the
fallback search by seller + stock-level linkage is attempted; and once the
Sales POST has succeeded, the decrement's outcome never influences the
returned Sales id — but an error thrown by the fallback search itself is not
caught (see the counterexample). -/
theorem C8_amended_decrement :
    (∀ cur amount : ℚ, 0 ≤ decrementNext cur amount) ∧
    (∀ cur : ℚ, 0 ≤ cur → decrementNext cur 1 ≤ cur) ∧
    (∀ (i err : String) (p : Bool) (a : ℚ),
      decrementInventoryQuantity (some i) (.error err) p a = .warned) ∧
    (∀ (i : String) (q : Option ℚ) (a : ℚ),
      decrementInventoryQuantity (some i) (.ok q) true a = .warned) ∧
    (∀ (i : String) (q : Option ℚ) (a : ℚ),
      decrementInventoryQuantity (some i) (.ok q) false a =
        .wrote (decrementNext (q.getD 0) a)) ∧
    (∀ (f : ExternalFields) (o : ResolveOracle) (invId : String),
      f.confirmedInventory = some invId → o.storedExists = false →
      ¬(f.confirmedSeller.head?.isNone ∧ f.stockLevelsLink.head?.isNone) →
      resolveConfirmedInventoryIdForExternal f o = o.searchOutcome) ∧
    (∀ (f : ExternalFields) (o : CreateSalesOracle) (inv : Option String) (salesId : Nat),
      resolveConfirmedInventoryIdForExternal f o.resolveO = .ok inv →
      o.postOutcome = .ok salesId →
      ∃ dec, createSalesFromExternal f o = .ok (salesId, dec)) := by
  refine ⟨?_, ?_, ?_, ?_, ?_, ?_, ?_⟩
  · intro cur amount; exact le_max_left 0 _
  · intro cur h
    unfold decrementNext
    exact max_le h (by linarith)
  · intro i err p a; rfl
  · intro i q a; rfl
  · intro i q a; rfl
  · intro f o invId hi hstored hcond
    simp [resolveConfirmedInventoryIdForExternal, hi, hstored, fallbackInventorySearch]
    intro h1 h2
    exact absurd (by simp [h1, h2]) hcond
  · intro f o inv salesId hres hpost
    simp only [createSalesFromExternal, hres, hpost]
    exact ⟨_, rfl⟩

/-- Witness for C8 amended at concrete values: read 5 → write 4 (bounded by
the read), a throwing read is swallowed into a warning, the fallback search
result is used when the stored reference is gone, and the Sale id survives
regardless of the decrement oracles. -/
theorem C8_amended_decrement_witness :
    (0 : ℚ) ≤ decrementNext 5 1 ∧ decrementNext 5 1 ≤ 5 ∧
    decrementInventoryQuantity (some "inv") (.error "boom") false 1 = .warned ∧
    resolveConfirmedInventoryIdForExternal c8Fields
      ⟨false, .ok (some "invX")⟩ = .ok (some "invX") ∧
    (∃ dec, createSalesFromExternal c8Fields
      ⟨⟨false, .ok (some "invX")⟩, .ok 9, .ok (some 2), false⟩ = .ok (9, dec)) :=
  ⟨C8_amended_decrement.1 5 1,
   C8_amended_decrement.2.1 5 (by norm_num),
   C8_amended_decrement.2.2.1 "inv" "boom" false 1,
   C8_amended_decrement.2.2.2.2.2.1 c8Fields ⟨false, .ok (some "invX")⟩ "goneInv"
     rfl rfl (by decide),
   C8_amended_decrement.2.2.2.2.2.2 c8Fields
     ⟨⟨false, .ok (some "invX")⟩, .ok 9, .ok (some 2), false⟩ (some "invX") 9 rfl rfl⟩
